import Mathlib

/-!
Verification of the revgen-work-tracker sync scripts.

This file gives a shallow embedding of the reconciliation and mapping logic
of the repository's Python scripts:

- scripts/sync_issue_to_notion.py : event-driven GitHub → Notion sync plus
  the bidirectional Notion → GitHub pass;
- scripts/sync_all_repos.py : multi-repo sweep sync;
- scripts/backfill_issues_to_notion.py : one-shot backfill loop.

HTTP effects are modelled by passing explicit responses (status code plus
parsed body) or oracle functions into the embedded functions; Python
exceptions become values of Except.  Python strings indexed by character
are modelled as List Char where slicing matters.
-/

namespace RevGen

/-- A GitHub label object; the scripts only read its name field. -/
structure Label where
  name : String
deriving Repr, DecidableEq

/-- A GitHub milestone: title plus an optional ISO-8601 due timestamp. -/
structure Milestone where
  title : String
  due_on : Option String
deriving Repr, DecidableEq

/-- A GitHub issue comment; the scripts read author login, timestamp, body. -/
structure Comment where
  user : String
  created_at : String
  body : String
deriving Repr, DecidableEq

/-- The fields of a GitHub issue that the sync scripts read. -/
structure Issue where
  number : Nat
  title : String
  state : String
  body : Option String
  labels : List Label
  milestone : Option Milestone
  assignees : List String
  html_url : String
deriving Repr, DecidableEq

/-- Python str.lower, character by character over the string's
characters. -/
def pyLower (s : String) : String :=
  String.mk (s.data.map Char.toLower)

/-- Lowercased label names, as both mapping functions compute them
(`[l["name"].lower() for l in labels]`). -/
def labelNames (labels : List Label) : List String :=
  labels.map (fun l => pyLower l.name)

/-- sync_issue_to_notion.NOTION_TO_GITHUB_STATUS lookup table. -/
def NOTION_TO_GITHUB_STATUS (s : String) : Option String :=
  if s = "Backlog" then some "open"
  else if s = "In Progress" then some "open"
  else if s = "Blocked" then some "open"
  else if s = "Waiting on Client" then some "open"
  else if s = "Under Review" then some "open"
  else if s = "Done" then some "closed"
  else none

/-- sync_issue_to_notion.map_status_to_notion: GitHub state + labels →
Notion status.  The labels argument defaults to None in Python and is
tested for truthiness (`if labels:`), hence Option with an emptiness
check here. -/
def map_status_to_notion (issue_state : String) (labels : Option (List Label)) : String :=
  if issue_state = "closed" then "Done"
  else
    match labels with
    | some ls =>
      if ls.isEmpty then "Backlog"
      else
        let label_names := labelNames ls
        if label_names.contains "blocked" then "Blocked"
        else if label_names.contains "in-progress" || label_names.contains "in progress" then
          "In Progress"
        else if label_names.contains "review" || label_names.contains "under-review" then
          "Under Review"
        else "Backlog"
    | none => "Backlog"

/-- sync_issue_to_notion.map_status_to_github: Notion status → GitHub
state, defaulting to open for unknown statuses. -/
def map_status_to_github (notion_status : String) : String :=
  (NOTION_TO_GITHUB_STATUS notion_status).getD "open"

/-- sync_all_repos.map_status: GitHub state + labels → Notion status.
Unlike the event-driven variant, labels is a plain list with no
truthiness check. -/
def map_status (issue_state : String) (labels : List Label) : String :=
  if issue_state = "closed" then "Done"
  else
    let label_names := labelNames labels
    if label_names.contains "blocked" then "Blocked"
    else if label_names.contains "in-progress" || label_names.contains "in progress" then
      "In Progress"
    else if label_names.contains "review" || label_names.contains "under-review" then
      "Under Review"
    else "Backlog"

/-- sync_all_repos.get_priority_from_labels: keyword-based priority with
default Medium. -/
def get_priority_from_labels (labels : List Label) : String :=
  let label_names := labelNames labels
  if label_names.contains "high-priority" || label_names.contains "high"
      || label_names.contains "urgent" then "High"
  else if label_names.contains "medium" || label_names.contains "medium-priority" then
    "Medium"
  else if label_names.contains "low" || label_names.contains "low-priority" then
    "Low"
  else "Medium"

/-- Python list-comprehension chunking
`[s[i:i+size] for i in range(0, len(s), size)]`, over a character list. -/
def pyChunks (xs : List Char) (size : Nat) : List (List Char) :=
  (List.range ((xs.length + size - 1) / size)).map (fun i => (xs.drop (i * size)).take size)

/-- The content blocks built by sync_all_repos.create_notion_page: if the
body is falsy nothing is attached, otherwise the body is truncated to
4000 characters and split into 2000-character paragraph chunks. -/
def create_notion_page_children (issue_body : List Char) : List (List Char) :=
  if issue_body.isEmpty then [] else pyChunks (issue_body.take 4000) 2000

/-- The body content blocks built by sync_issue_to_notion.create_notion_page:
no overall truncation, the whole body is split into 2000-character chunks. -/
def create_notion_page_children_event (issue_body : List Char) : List (List Char) :=
  if issue_body.isEmpty then [] else pyChunks issue_body 2000

/-- A record in the target Notion database; the sync code only dereferences
its id after lookup. -/
structure NotionPage where
  id : String
deriving Repr, DecidableEq

/-- An HTTP response to the database query endpoint: status code and the
parsed results list, in API-returned order. -/
structure QueryResponse where
  status : Nat
  results : List NotionPage
deriving Repr, DecidableEq

/-- sync_issue_to_notion.find_existing_page over an explicit query
response.  resp.raise_for_status raises HTTPError for client and server
error codes (400 ≤ status < 600); otherwise the first result, if any, is
returned.  Except.error models the raised exception. -/
def find_existing_page (resp : QueryResponse) : Except Nat (Option NotionPage) :=
  if 400 ≤ resp.status ∧ resp.status < 600 then Except.error resp.status
  else Except.ok resp.results.head?

/-- sync_all_repos.find_existing_page: returns the first result on a 200
response and None on any other status, never raising. -/
def find_existing_page_multi (resp : QueryResponse) : Option NotionPage :=
  if resp.status = 200 then resp.results.head? else none

/-- The effects observed while reconciling one issue: the results of
get_issue_comments, of the find_existing_page lookup, and of the Notion
write (update when a page was found, create when not).  Except.error
models a raised Python exception anywhere in the attempt (the writes
raise via raise_for_status on non-success; the event-driven lookup can
raise as well). -/
structure IssueAttempt where
  comments : Except String (List Comment)
  findExisting : Except String (Option NotionPage)
  updateResult : Except String Unit
  createResult : Except String Unit
deriving Repr

/-- Terminal outcome of one issue's reconciliation attempt. -/
inductive Outcome
  | created
  | updated
  | errored
deriving Repr, DecidableEq

/-- The try-block body of the per-issue loop in sync_all_repos.sync_repo
and backfill_issues_to_notion.backfill: fetch comments, resolve the
existing page, then update when found and create when not.  Each raised
exception propagates out of the block. -/
def attemptIssue (a : IssueAttempt) : Except String Outcome :=
  match a.comments with
  | Except.error e => Except.error e
  | Except.ok _ =>
    match a.findExisting with
    | Except.error e => Except.error e
    | Except.ok (some _) =>
      match a.updateResult with
      | Except.error e => Except.error e
      | Except.ok _ => Except.ok Outcome.updated
    | Except.ok none =>
      match a.createResult with
      | Except.error e => Except.error e
      | Except.ok _ => Except.ok Outcome.created

/-- The per-issue try/except boundary: any exception raised during the
attempt is caught and the issue counts as an error. -/
def processIssue (a : IssueAttempt) : Outcome :=
  match attemptIssue a with
  | Except.ok o => o
  | Except.error _ => Outcome.errored

/-- One step of the counter accumulation in sync_repo / backfill:
(created, updated, errors). -/
def tallyOutcome (counts : Nat × Nat × Nat) (a : IssueAttempt) : Nat × Nat × Nat :=
  match processIssue a with
  | Outcome.created => (counts.1 + 1, counts.2.1, counts.2.2)
  | Outcome.updated => (counts.1, counts.2.1 + 1, counts.2.2)
  | Outcome.errored => (counts.1, counts.2.1, counts.2.2 + 1)

/-- The reconciliation loop of sync_all_repos.sync_repo (and of
backfill_issues_to_notion.backfill): every issue is processed in order
and the created/updated/errors counters are accumulated. -/
def sync_repo (issues : List IssueAttempt) : Nat × Nat × Nat :=
  issues.foldl tallyOutcome (0, 0, 0)

/-- A raw item from the GitHub issues list endpoint: pull requests also
appear there, marked by the presence of a pull_request key. -/
structure RawIssue where
  number : Nat
  has_pull_request : Bool
deriving Repr, DecidableEq

/-- An HTTP response from the issues list endpoint. -/
structure FetchPage where
  status : Nat
  items : List RawIssue
deriving Repr, DecidableEq

/-- One state's pagination loop in get_all_issues (the same loop appears
in sync_all_repos.py and backfill_issues_to_notion.py): request a page,
stop on a non-200 status or an empty page, filter out pull requests,
accumulate, stop when the filtered page holds fewer than 100 items,
otherwise advance to the next page.  The while-True loop is given
explicit fuel; the result pairs the accumulated issues with the number
of page requests issued for this state. -/
def fetchStatePages (fetch : Nat → FetchPage) : Nat → Nat → List RawIssue × Nat
  | 0, _ => ([], 0)
  | fuel + 1, page =>
    let resp := fetch page
    if resp.status ≠ 200 then ([], 1)
    else if resp.items.isEmpty then ([], 1)
    else
      let filtered := resp.items.filter (fun i => !i.has_pull_request)
      if filtered.length < 100 then (filtered, 1)
      else
        let next := fetchStatePages fetch fuel (page + 1)
        (filtered ++ next.1, next.2 + 1)

/-- get_all_issues: run the pagination loop for the open state and then
for the closed state, starting each at page 1, concatenating the results
and totalling the page requests. -/
def get_all_issues (fetch : String → Nat → FetchPage) (fuel : Nat) : List RawIssue × Nat :=
  let openRun := fetchStatePages (fetch "open") fuel 1
  let closedRun := fetchStatePages (fetch "closed") fuel 1
  (openRun.1 ++ closedRun.1, openRun.2 + closedRun.2)

/-- A GitHub write issued by the Notion → GitHub pass. -/
inductive GithubAction
  | close
  | reopen
  | set_labels (labels : List String)
deriving Repr, DecidableEq

/-- Python set(xs) == set(ys) over label-name lists: mutual containment. -/
def pySetEq (xs ys : List String) : Bool :=
  xs.all (fun x => ys.contains x) && ys.all (fun y => xs.contains y)

/-- The per-record body of sync_issue_to_notion.sync_notion_to_github,
reduced to the GitHub writes it issues: given the record's status and
label names and the source issue's current state and label names, first
the state correction when the states differ (close when the expected
state is closed, otherwise reopen), then the full label overwrite when
the two label sets differ as Python sets. -/
def reconcile_notion_page (notion_status : String) (notion_labels : List String)
    (gh_state : String) (gh_labels : List String) : List GithubAction :=
  let expected_gh_state := map_status_to_github notion_status
  (if gh_state ≠ expected_gh_state then
    (if expected_gh_state = "closed" then [GithubAction.close] else [GithubAction.reopen])
  else []) ++
  (if !pySetEq gh_labels notion_labels then [GithubAction.set_labels notion_labels] else [])

end RevGen

namespace RevGen

/-- On a non-closed state, the event-driven mapping never yields Done. -/
lemma map_status_to_notion_ne_done (issue_state : String) (labels : Option (List Label))
    (h : issue_state ≠ "closed") : map_status_to_notion issue_state labels ≠ "Done" := by
  cases labels with
  | none => simp [map_status_to_notion, h]
  | some ls =>
    by_cases he : ls.isEmpty
    · simp [map_status_to_notion, h, he]
    · simp only [map_status_to_notion, if_neg h, he, Bool.false_eq_true, if_false]
      split_ifs <;> simp

/-- On a non-closed state, the multi-repo mapping never yields Done. -/
lemma map_status_ne_done (issue_state : String) (labels : List Label)
    (h : issue_state ≠ "closed") : map_status issue_state labels ≠ "Done" := by
  simp only [map_status, if_neg h]
  split_ifs <;> simp

/-- C1: For every issue, the forward field mapping assigns target status
"Done" if and only if the issue's state is "closed", regardless of the
issue's label set, in both the event-driven mapping
(map_status_to_notion) and the multi-repo mapping (map_status). -/
theorem done_iff_closed (issue_state : String) (optLabels : Option (List Label))
    (labels : List Label) :
    (map_status_to_notion issue_state optLabels = "Done" ↔ issue_state = "closed") ∧
    (map_status issue_state labels = "Done" ↔ issue_state = "closed") := by
  by_cases h : issue_state = "closed"
  · subst h
    constructor <;> simp [map_status_to_notion, map_status]
  · exact ⟨⟨fun hd => absurd hd (map_status_to_notion_ne_done _ _ h), fun hc => absurd hc h⟩,
      ⟨fun hd => absurd hd (map_status_ne_done _ _ h), fun hc => absurd hc h⟩⟩

/-- C7: For every label set L, the reverse status mapping applied to the
status produced by the forward mapping with state "closed" and labels L
yields "closed": the source→target→source round trip holds on the closed
path. -/
theorem closed_round_trip (labels : Option (List Label)) :
    map_status_to_github (map_status_to_notion "closed" labels) = "closed" := by
  rfl

/-- C2: For every issue body of exactly 5000 characters, the multi-repo
create path (truncation bound 4000, segment bound 2000) produces exactly
2 content segments, each of at most 2000 characters, whose concatenation
is exactly the first 4000 characters of the body; the event-driven
create path instead chunks the full body, yielding 3 segments — the
inconsistency the spec flags between the two create paths. -/
theorem body_5000_two_segments (body : List Char) (h : body.length = 5000) :
    (create_notion_page_children body).length = 2 ∧
    (∀ c ∈ create_notion_page_children body, c.length ≤ 2000) ∧
    (create_notion_page_children body).flatten = body.take 4000 ∧
    (create_notion_page_children_event body).length = 3 := by
  have hne : body.isEmpty = false := by
    cases body with
    | nil => simp at h
    | cons a l => rfl
  have ht : (body.take 4000).length = 4000 := by
    rw [List.length_take, h]
    decide
  have hch : create_notion_page_children body =
      [(body.take 4000).take 2000, ((body.take 4000).drop 2000).take 2000] := by
    unfold create_notion_page_children pyChunks
    rw [if_neg (by simp [hne]), ht]
    norm_num [List.range_succ]
  refine ⟨by simp [hch], ?_, ?_, ?_⟩
  · intro c hc
    rw [hch] at hc
    simp only [List.mem_cons, List.not_mem_nil, or_false] at hc
    rcases hc with rfl | rfl
    · exact List.length_take_le 2000 _
    · exact List.length_take_le 2000 _
  · have hdt : ((body.take 4000).drop 2000).take 2000 = (body.take 4000).drop 2000 :=
      List.take_of_length_le (by rw [List.length_drop, ht])
    rw [hch]
    simp only [List.flatten_cons, List.flatten_nil, List.append_nil, hdt,
      List.take_append_drop]
  · unfold create_notion_page_children_event pyChunks
    rw [if_neg (by simp [hne]), h, List.length_map, List.length_range]

/-- C3 counterexample: the event-driven find_existing_page is not
exception-free — on a 500 response raise_for_status raises, so the claim
that find_existing never raises in all cases is false on the code. -/
theorem find_existing_raises_on_500 :
    find_existing_page ⟨500, []⟩ = Except.error 500 := by
  rfl

/-- C3 amended: on a success response both find_existing_page variants
return the first matching record in API-returned response order (also
when two or more match), and none when no record matches; the multi-repo
variant never raises, returning none on any non-200 status, while the
event-driven variant raises exactly on HTTP error statuses
(400 ≤ status < 600). -/
theorem find_existing_first_or_none (status : Nat) (p : NotionPage)
    (rest results : List NotionPage) :
    (status = 200 →
      find_existing_page_multi ⟨status, p :: rest⟩ = some p ∧
      find_existing_page ⟨status, p :: rest⟩ = Except.ok (some p) ∧
      find_existing_page_multi ⟨status, []⟩ = none ∧
      find_existing_page ⟨status, []⟩ = Except.ok none) ∧
    (status ≠ 200 → find_existing_page_multi ⟨status, results⟩ = none) ∧
    (400 ≤ status → status < 600 →
      find_existing_page ⟨status, results⟩ = Except.error status) := by
  refine ⟨?_, ?_, ?_⟩
  · intro h
    subst h
    refine ⟨?_, ?_, ?_, ?_⟩ <;> simp [find_existing_page_multi, find_existing_page]
  · intro h
    simp [find_existing_page_multi, h]
  · intro h1 h2
    simp [find_existing_page, h1, h2]

/-- C3 amended, instantiated: a 200 response with two matching records
yields the first one from both variants. -/
theorem find_existing_first_or_none_witness :
    find_existing_page_multi ⟨200, [⟨"pg1"⟩, ⟨"pg2"⟩]⟩ = some ⟨"pg1"⟩ ∧
    find_existing_page ⟨200, [⟨"pg1"⟩, ⟨"pg2"⟩]⟩ = Except.ok (some ⟨"pg1"⟩) := by
  have h := (find_existing_first_or_none 200 ⟨"pg1"⟩ [⟨"pg2"⟩] []).1 rfl
  exact ⟨h.1, h.2.1⟩

/-- A successful attempt only ever produces the Created or Updated
outcome: Errored arises solely from a caught exception. -/
lemma attemptIssue_ok (a : IssueAttempt) (o : Outcome)
    (h : attemptIssue a = Except.ok o) :
    o = Outcome.created ∨ o = Outcome.updated := by
  unfold attemptIssue at h
  repeat' split at h
  all_goals simp_all

/-- The counter fold, generalized over the starting accumulator. -/
lemma foldl_tallyOutcome (issues : List IssueAttempt) :
    ∀ c u e : Nat, issues.foldl tallyOutcome (c, u, e) =
      (c + issues.countP (fun a => processIssue a = Outcome.created),
       u + issues.countP (fun a => processIssue a = Outcome.updated),
       e + issues.countP (fun a => processIssue a = Outcome.errored)) := by
  induction issues with
  | nil =>
    intro c u e
    simp
  | cons a t ih =>
    intro c u e
    rw [List.foldl_cons]
    cases h : processIssue a with
    | created =>
      rw [show tallyOutcome (c, u, e) a = (c + 1, u, e) from by simp [tallyOutcome, h]]
      rw [ih]
      simp only [List.countP_cons, h, Prod.mk.injEq]
      norm_num
      refine ⟨?_, ?_, ?_⟩ <;> first | decide | omega
    | updated =>
      rw [show tallyOutcome (c, u, e) a = (c, u + 1, e) from by simp [tallyOutcome, h]]
      rw [ih]
      simp only [List.countP_cons, h, Prod.mk.injEq]
      norm_num
      refine ⟨?_, ?_, ?_⟩ <;> first | decide | omega
    | errored =>
      rw [show tallyOutcome (c, u, e) a = (c, u, e + 1) from by simp [tallyOutcome, h]]
      rw [ih]
      simp only [List.countP_cons, h, Prod.mk.injEq]
      norm_num
      refine ⟨?_, ?_, ?_⟩ <;> first | decide | omega

/-- C4: Every issue processed in a sync run ends in exactly one of the
terminal outcomes Created, Updated or Errored: the run counters are
exactly the per-outcome counts, the three counts partition the issue
list, and an issue is counted as Errored precisely when an exception was
raised during its fetch-comments/resolve/write attempt and caught at the
per-issue boundary — the loop always continues over the whole list. -/
theorem sync_repo_terminal_outcomes (issues : List IssueAttempt) :
    sync_repo issues =
      (issues.countP (fun a => processIssue a = Outcome.created),
       issues.countP (fun a => processIssue a = Outcome.updated),
       issues.countP (fun a => processIssue a = Outcome.errored)) ∧
    issues.countP (fun a => processIssue a = Outcome.created) +
      issues.countP (fun a => processIssue a = Outcome.updated) +
      issues.countP (fun a => processIssue a = Outcome.errored) = issues.length ∧
    ∀ a : IssueAttempt,
      (processIssue a = Outcome.errored ↔ ∃ e, attemptIssue a = Except.error e) := by
  refine ⟨?_, ?_, ?_⟩
  · unfold sync_repo
    rw [foldl_tallyOutcome]
    simp
  · induction issues with
    | nil => rfl
    | cons a t ih =>
      simp only [List.countP_cons, List.length_cons]
      cases h : processIssue a <;> simp [h] <;> omega
  · intro a
    constructor
    · intro h
      unfold processIssue at h
      cases ha : attemptIssue a with
      | ok o =>
        rw [ha] at h
        simp only at h
        subst h
        rcases attemptIssue_ok a _ ha with hco | hco <;> cases hco
      | error e => exact ⟨e, rfl⟩
    · rintro ⟨e, he⟩
      unfold processIssue
      rw [he]

/-- C10: Whenever the multi-repo target-database query returns a
non-success HTTP status, find_existing_page returns none instead of
raising; sync_repo consequently takes the create path for that issue —
outcome Created — even when matching records already exist in the
database, producing a duplicate instead of an update. -/
theorem error_query_creates_duplicate (status : Nat) (dbMatches : List NotionPage)
    (cs : List Comment) (hstatus : status ≠ 200) (hmatches : dbMatches ≠ []) :
    find_existing_page_multi ⟨status, dbMatches⟩ = none ∧
    processIssue
      { comments := Except.ok cs
        findExisting := Except.ok (find_existing_page_multi ⟨status, dbMatches⟩)
        updateResult := Except.ok ()
        createResult := Except.ok () } = Outcome.created := by
  have hf : find_existing_page_multi ⟨status, dbMatches⟩ = none := by
    simp [find_existing_page_multi, hstatus]
  refine ⟨hf, ?_⟩
  rw [hf]
  rfl

/-- C10 instantiated: a 500 query response with an existing matching
record still yields the Created outcome. -/
theorem error_query_creates_duplicate_witness :
    find_existing_page_multi ⟨500, [⟨"existing"⟩]⟩ = none ∧
    processIssue
      { comments := Except.ok []
        findExisting := Except.ok (find_existing_page_multi ⟨500, [⟨"existing"⟩]⟩)
        updateResult := Except.ok ()
        createResult := Except.ok () } = Outcome.created :=
  error_query_creates_duplicate 500 [⟨"existing"⟩] [] (by decide) (by simp)

/-- One pagination step on a full page of 100 non-pull-request items:
the loop keeps the page and continues with the next page. -/
lemma fetchStatePages_full_step (fetch : Nat → FetchPage) (fuel page : Nat)
    (items : List RawIssue) (h1 : fetch page = ⟨200, items⟩)
    (hlen : items.length = 100) (hnp : ∀ i ∈ items, i.has_pull_request = false) :
    fetchStatePages fetch (fuel + 1) page =
      (items ++ (fetchStatePages fetch fuel (page + 1)).1,
       (fetchStatePages fetch fuel (page + 1)).2 + 1) := by
  have hfilter : items.filter (fun i => !i.has_pull_request) = items :=
    List.filter_eq_self.mpr (fun a ha => by simp [hnp a ha])
  have hne : items.isEmpty = false := by
    cases items with
    | nil => simp at hlen
    | cons x l => rfl
  simp only [fetchStatePages, h1, hne, hfilter, hlen]
  norm_num

/-- A pagination step on an empty page stops after that single request. -/
lemma fetchStatePages_empty_step (fetch : Nat → FetchPage) (fuel page : Nat)
    (h : fetch page = ⟨200, []⟩) :
    fetchStatePages fetch (fuel + 1) page = ([], 1) := by
  simp [fetchStatePages, h]

/-- C5: For each state, if the issue-list fetch returns exactly 100
pull-request-free items on page 1 and an empty page 2, then the
get_all_issues pagination loop returns exactly those 100 items for that
state while issuing exactly 2 page requests for that state; the whole
get_all_issues run concatenates the two states' results with 4 requests
in total. -/
theorem get_all_issues_two_pages (fetch : String → Nat → FetchPage)
    (openItems closedItems : List RawIssue) (fuel : Nat)
    (ho1 : fetch "open" 1 = ⟨200, openItems⟩) (ho2 : fetch "open" 2 = ⟨200, []⟩)
    (holen : openItems.length = 100)
    (honp : ∀ i ∈ openItems, i.has_pull_request = false)
    (hc1 : fetch "closed" 1 = ⟨200, closedItems⟩) (hc2 : fetch "closed" 2 = ⟨200, []⟩)
    (hclen : closedItems.length = 100)
    (hcnp : ∀ i ∈ closedItems, i.has_pull_request = false) :
    fetchStatePages (fetch "open") (fuel + 2) 1 = (openItems, 2) ∧
    fetchStatePages (fetch "closed") (fuel + 2) 1 = (closedItems, 2) ∧
    get_all_issues fetch (fuel + 2) = (openItems ++ closedItems, 4) := by
  have hopen : fetchStatePages (fetch "open") (fuel + 2) 1 = (openItems, 2) := by
    rw [show fuel + 2 = (fuel + 1) + 1 from rfl,
      fetchStatePages_full_step (fetch "open") (fuel + 1) 1 openItems ho1 holen honp,
      fetchStatePages_empty_step (fetch "open") fuel 2 ho2]
    simp
  have hclosed : fetchStatePages (fetch "closed") (fuel + 2) 1 = (closedItems, 2) := by
    rw [show fuel + 2 = (fuel + 1) + 1 from rfl,
      fetchStatePages_full_step (fetch "closed") (fuel + 1) 1 closedItems hc1 hclen hcnp,
      fetchStatePages_empty_step (fetch "closed") fuel 2 hc2]
    simp
  refine ⟨hopen, hclosed, ?_⟩
  simp [get_all_issues, hopen, hclosed]

/-- C5 instantiated with a concrete stub returning 100 items on page 1
and an empty page 2 for both states. -/
theorem get_all_issues_two_pages_witness :
    fetchStatePages
      ((fun _ p => if p = 1 then ⟨200, List.replicate 100 ⟨1, false⟩⟩
          else (⟨200, []⟩ : FetchPage)) "open") 2 1 =
      (List.replicate 100 ⟨1, false⟩, 2) ∧
    fetchStatePages
      ((fun _ p => if p = 1 then ⟨200, List.replicate 100 ⟨1, false⟩⟩
          else (⟨200, []⟩ : FetchPage)) "closed") 2 1 =
      (List.replicate 100 ⟨1, false⟩, 2) ∧
    get_all_issues
      (fun _ p => if p = 1 then ⟨200, List.replicate 100 ⟨1, false⟩⟩
          else (⟨200, []⟩ : FetchPage)) 2 =
      (List.replicate 100 ⟨1, false⟩ ++ List.replicate 100 ⟨1, false⟩, 4) :=
  get_all_issues_two_pages
    (fun _ p => if p = 1 then ⟨200, List.replicate 100 ⟨1, false⟩⟩ else ⟨200, []⟩)
    (List.replicate 100 ⟨1, false⟩) (List.replicate 100 ⟨1, false⟩) 0
    rfl rfl (List.length_replicate 100 _)
    (fun i hi => by rw [List.eq_of_mem_replicate hi])
    rfl rfl (List.length_replicate 100 _)
    (fun i hi => by rw [List.eq_of_mem_replicate hi])

/-- C9: If a raw fetched page contains exactly 100 items of which at
least one is a pull request, the pagination loop stops for that state
after that very page: the stop condition compares the filtered count —
now below 100 — against the page size, so only one request is issued and
later pages are never fetched. -/
theorem pr_page_stops_pagination (fetch : Nat → FetchPage) (items : List RawIssue)
    (fuel : Nat) (h1 : fetch 1 = ⟨200, items⟩) (hlen : items.length = 100)
    (hpr : ∃ i ∈ items, i.has_pull_request = true) :
    fetchStatePages fetch (fuel + 1) 1 =
      (items.filter (fun i => !i.has_pull_request), 1) := by
  have hlt : (items.filter (fun i => !i.has_pull_request)).length < 100 := by
    obtain ⟨i, hi, hipr⟩ := hpr
    have h : (items.filter (fun i => !i.has_pull_request)).length < items.length :=
      List.length_filter_lt_length_iff_exists.mpr ⟨i, hi, by simp [hipr]⟩
    rw [hlen] at h
    exact h
  have hne : items.isEmpty = false := by
    cases items with
    | nil => simp at hlen
    | cons x l => rfl
  simp only [fetchStatePages, h1, hne, hlt]
  norm_num [hlt]

/-- C9 instantiated: a page of one pull request plus 99 issues stops the
loop with a single request, dropping the issue waiting on page 2. -/
theorem pr_page_stops_pagination_witness :
    fetchStatePages
      (fun p => if p = 1 then ⟨200, ⟨0, true⟩ :: List.replicate 99 ⟨1, false⟩⟩
          else (⟨200, [⟨2, false⟩]⟩ : FetchPage)) (0 + 1) 1 =
      ((⟨0, true⟩ :: List.replicate 99 ⟨1, false⟩).filter (fun i => !i.has_pull_request),
       1) :=
  pr_page_stops_pagination
    (fun p => if p = 1 then ⟨200, ⟨0, true⟩ :: List.replicate 99 ⟨1, false⟩⟩
        else ⟨200, [⟨2, false⟩]⟩)
    (⟨0, true⟩ :: List.replicate 99 ⟨1, false⟩) 0 rfl (by simp)
    ⟨⟨0, true⟩, List.mem_cons_self _ _, rfl⟩

/-- C2 instantiated at a concrete 5000-character body. -/
theorem body_5000_two_segments_witness :
    (create_notion_page_children (List.replicate 5000 'a')).length = 2 ∧
    (∀ c ∈ create_notion_page_children (List.replicate 5000 'a'), c.length ≤ 2000) ∧
    (create_notion_page_children (List.replicate 5000 'a')).flatten =
      (List.replicate 5000 'a').take 4000 ∧
    (create_notion_page_children_event (List.replicate 5000 'a')).length = 3 :=
  body_5000_two_segments (List.replicate 5000 'a') (List.length_replicate 5000 'a')

end RevGen

namespace RevGen

/-- pySetEq is exactly unordered-set equality of the two name lists. -/
lemma pySetEq_iff (xs ys : List String) :
    pySetEq xs ys = true ↔ (∀ x, x ∈ xs ↔ x ∈ ys) := by
  simp only [pySetEq, Bool.and_eq_true, List.all_eq_true]
  constructor
  · rintro ⟨h1, h2⟩ x
    constructor
    · intro hx
      simpa using h1 x hx
    · intro hx
      simpa using h2 x hx
  · intro h
    constructor
    · intro x hx
      simpa using (h x).mp hx
    · intro y hy
      simpa using (h y).mpr hy

/-- C6: In the Notion → GitHub pass, a target record with status Done
whose source issue is currently open gets its source issue closed; the
source label set is left untouched exactly when source and target label
sets are equal as unordered sets, and is otherwise overwritten wholesale
with the target's label set.  pySetEq is shown to coincide with
unordered-set equality. -/
theorem done_open_closes_issue (notion_labels gh_labels : List String) :
    (pySetEq gh_labels notion_labels = true ↔
      (∀ x, x ∈ gh_labels ↔ x ∈ notion_labels)) ∧
    reconcile_notion_page "Done" notion_labels "open" gh_labels =
      GithubAction.close ::
        (if pySetEq gh_labels notion_labels then []
         else [GithubAction.set_labels notion_labels]) := by
  refine ⟨pySetEq_iff gh_labels notion_labels, ?_⟩
  cases hb : pySetEq gh_labels notion_labels <;>
    simp [reconcile_notion_page, map_status_to_github, NOTION_TO_GITHUB_STATUS, hb]

end RevGen

namespace RevGen

/-- The Notion property payload built by sync_all_repos.build_properties,
field by field; absent optional properties are none. -/
structure NotionProperties where
  name : String
  issue_id : String
  repo : String
  url : String
  status : String
  source : String
  priority : String
  labels : List String
  milestone : Option String
  due_date : Option String
  assignee : Option String
  comments : Nat
deriving Repr, DecidableEq

/-- sync_all_repos.build_properties: map one GitHub issue onto the Notion
property schema.  The Due Date property is set only when the milestone
is present with a truthy due_on, keeping its first 10 characters; the
Assignee property joins the logins with a comma and is absent when the
assignee list is empty. -/
def build_properties (issue : Issue) (repo_name : String) (source : String)
    (comments_count : Nat) : NotionProperties :=
  { name := issue.title
    issue_id := toString issue.number
    repo := repo_name
    url := issue.html_url
    status := map_status issue.state issue.labels
    source := source
    priority := get_priority_from_labels issue.labels
    labels := issue.labels.map (fun l => l.name)
    milestone := issue.milestone.map (fun m => m.title)
    due_date := issue.milestone.bind (fun m =>
      match m.due_on with
      | some d => if d.isEmpty then none else some (d.take 10)
      | none => none)
    assignee :=
      if issue.assignees.isEmpty then none
      else some (String.intercalate ", " issue.assignees)
    comments := comments_count }

/-- C8: An open issue whose label set contains "blocked" and none of the
priority keyword labels reconciles to a record with status Blocked,
priority Medium (the default), and comment count 0 when the fetched
comment list is empty. -/
theorem blocked_issue_properties (issue : Issue) (repo_name source : String)
    (comments : List Comment)
    (hstate : issue.state = "open")
    (hblocked : (labelNames issue.labels).contains "blocked" = true)
    (hp1 : (labelNames issue.labels).contains "high-priority" = false)
    (hp2 : (labelNames issue.labels).contains "high" = false)
    (hp3 : (labelNames issue.labels).contains "urgent" = false)
    (hp4 : (labelNames issue.labels).contains "medium" = false)
    (hp5 : (labelNames issue.labels).contains "medium-priority" = false)
    (hp6 : (labelNames issue.labels).contains "low" = false)
    (hp7 : (labelNames issue.labels).contains "low-priority" = false)
    (hcomments : comments = []) :
    (build_properties issue repo_name source comments.length).status = "Blocked" ∧
    (build_properties issue repo_name source comments.length).priority = "Medium" ∧
    (build_properties issue repo_name source comments.length).comments = 0 := by
  refine ⟨?_, ?_, ?_⟩
  · simp only [build_properties, map_status, hstate, hblocked]
    norm_num
    exact fun h => absurd h (by decide)
  · simp only [build_properties, get_priority_from_labels, hp1, hp2, hp3, hp4, hp5, hp6, hp7]
    norm_num
  · simp [build_properties, hcomments]

/-- C8 instantiated at issue #42 "Fix login bug" with the single label
"blocked" and no fetched comments. -/
theorem blocked_issue_properties_witness :
    (build_properties
      ⟨42, "Fix login bug", "open", none, [⟨"blocked"⟩], none, [],
        "https://github.com/jakimhartford/revgen-work-tracker/issues/42"⟩
      "revgen-work-tracker" "RevGen" ([] : List Comment).length).status = "Blocked" ∧
    (build_properties
      ⟨42, "Fix login bug", "open", none, [⟨"blocked"⟩], none, [],
        "https://github.com/jakimhartford/revgen-work-tracker/issues/42"⟩
      "revgen-work-tracker" "RevGen" ([] : List Comment).length).priority = "Medium" ∧
    (build_properties
      ⟨42, "Fix login bug", "open", none, [⟨"blocked"⟩], none, [],
        "https://github.com/jakimhartford/revgen-work-tracker/issues/42"⟩
      "revgen-work-tracker" "RevGen" ([] : List Comment).length).comments = 0 :=
  blocked_issue_properties
    ⟨42, "Fix login bug", "open", none, [⟨"blocked"⟩], none, [],
      "https://github.com/jakimhartford/revgen-work-tracker/issues/42"⟩
    "revgen-work-tracker" "RevGen" [] rfl (by decide) (by decide) (by decide)
    (by decide) (by decide) (by decide) (by decide) (by decide) rfl

end RevGen
